import Mathlib

/-!
# CRM Launcher (`src/launcher/main.go`)

A shallow embedding of the launcher's `main` function.  The program is a
linear script, so it is modelled as a pure function from the things it reads
from the outside (the process environment, the host OS name, the directory of
the executable, and the outcomes of the child processes it spawns) to the
things it does: the final process environment, the chronological list of
observable events (console lines, spawned commands, the sleep), and the exit
status.  The state also records the environment in which each event happens
and every `os.Setenv` call, so that statements about the environment can be
made for the whole run and not only for its end.
-/

namespace Launcher

/-! ## Process environment -/

/-- The process environment: a variable is either unset (`none`) or set to a
string (`some v`, where `v` may be empty). -/
abbrev Env := String → Option String

/-- Go `os.Getenv`: the value of the variable, or the empty string when the
variable is not present. -/
def getenv (env : Env) (key : String) : String :=
  (env key).getD ""

/-- Go `os.Setenv`: the variable `key` now holds `value`; every other variable
is unchanged. -/
def setenv (env : Env) (key value : String) : Env :=
  fun k => if k = key then some value else env k

/-- The environment in which no variable is set. -/
def emptyEnv : Env := fun _ => none

/-! ## Commands, events, outside world -/

/-- An `exec.Cmd` as built by `exec.Command(name, arg...)` followed by an
optional assignment to `Dir`.  `args` are the arguments after the program
name; `dir` is `""` when `Dir` is never assigned. -/
structure Cmd where
  name : String
  args : List String
  dir : String
  deriving DecidableEq, Repr

/-- Go `exec.Command(name, arg...)`: `Dir` starts out empty. -/
def command (name : String) (args : List String) : Cmd :=
  { name := name, args := args, dir := "" }

/-- The assignment `cmd.Dir = dir`. -/
def Cmd.setDir (c : Cmd) (dir : String) : Cmd :=
  { c with dir := dir }

/-- Observable events of one execution, recorded in program order. -/
inductive Event where
  /-- One line written by `fmt.Println`. -/
  | println (line : String)
  /-- One call of `cmd.Run()` (spawn and wait); `ok` is `err == nil`. -/
  | run (c : Cmd) (ok : Bool)
  /-- One call of `time.Sleep` with the given number of seconds. -/
  | sleep (seconds : Nat)
  /-- One call of `cmd.Start()` (spawn, not awaited); `ok` is `err == nil`. -/
  | start (c : Cmd) (ok : Bool)
  deriving DecidableEq, Repr

/-- Everything the launcher reads from outside besides the environment. -/
structure World where
  /-- Value of `runtime.GOOS`. -/
  goos : String
  /-- Value of `filepath.Dir(exe)` for the `exe` returned by `os.Executable()`
  (whose error is discarded). -/
  exeDir : String
  /-- Whether `cmd.Run()` on the given command succeeds. -/
  runOk : Cmd → Bool
  /-- Whether `cmd.Start()` on the given command succeeds. -/
  startOk : Cmd → Bool

/-- Machine state threaded through the script.  Besides the current
environment and the events so far it keeps two records of how the environment
was used: for every event of `trace`, in the same order, the environment as it
stood when the event happened (`seen`), and every `os.Setenv` call made so
far as a key and value (`setenvs`). -/
structure State where
  env : Env
  trace : List Event
  seen : List Env := []
  setenvs : List (String × String) := []

/-- Append one event to the trace, together with the environment it happens
in. -/
def State.emit (s : State) (e : Event) : State :=
  { s with trace := s.trace ++ [e], seen := s.seen ++ [s.env] }

/-- Go `os.Setenv(key, value)` on the state: the environment is updated and the
call is recorded. -/
def State.setenv (s : State) (key value : String) : State :=
  { s with env := Launcher.setenv s.env key value, setenvs := s.setenvs ++ [(key, value)] }

/-- Go `fmt.Println(a...)`: the operands separated by single spaces, as one
line. -/
def State.println (s : State) (operands : List String) : State :=
  s.emit (Event.println (" ".intercalate operands))

/-- The statement `if os.Getenv(key) == "" { os.Setenv(key, dflt) }`. -/
def State.defaultEnv (s : State) (key dflt : String) : State :=
  if getenv s.env key = "" then s.setenv key dflt else s

/-! ## The script, step by step -/

/-- Lines 20-32: default ports if not set. -/
def applyDefaults (s : State) : State :=
  let s := s.defaultEnv "CRM2_BACKEND_PORT" "3002"
  let s := s.defaultEnv "CRM2_FRONTEND_PORT" "5173"
  let s := s.defaultEnv "CRM2_POSTGRES_PORT" "5434"
  let s := s.defaultEnv "CRM2_OLLAMA_PORT" "11435"
  s

/-- Line 38-39: `exec.Command("docker", "compose", "up", "-d", "--build")`
with `Dir = dir`. -/
def primaryCmd (dir : String) : Cmd :=
  (command "docker" ["compose", "up", "-d", "--build"]).setDir dir

/-- Line 43-44: `exec.Command("docker-compose", "up", "-d", "--build")` with
`Dir = dir`. -/
def fallbackCmd (dir : String) : Cmd :=
  (command "docker-compose" ["up", "-d", "--build"]).setDir dir

/-- Lines 37-51: run the primary command, on failure the fallback command, and
on failure of both print the message and `os.Exit(1)`.  The second component
is `some code` when the process has exited. -/
def startServices (w : World) (dir : String) (s : State) : State × Option Nat :=
  let cmd := primaryCmd dir
  let ok := w.runOk cmd
  let s := s.emit (Event.run cmd ok)
  if ok then (s, none)
  else
    let cmd := fallbackCmd dir
    let ok := w.runOk cmd
    let s := s.emit (Event.run cmd ok)
    if ok then (s, none)
    else
      let s := s.println ["Failed to start containers. Is Docker Desktop running?"]
      (s, some 1)

/-- Lines 53-57: the target URL. -/
def targetUrl (env : Env) : String :=
  let port := getenv env "CRM2_FRONTEND_PORT"
  let port := if port = "" then "5173" else port
  "http://localhost:" ++ port

/-- Lines 62-70: the `switch runtime.GOOS` that starts the browser opener. -/
def openBrowser (w : World) (url : String) (s : State) : State :=
  if w.goos = "windows" then
    let c := command "cmd" ["/c", "start", "", url]
    s.emit (Event.start c (w.startOk c))
  else if w.goos = "darwin" then
    let c := command "open" [url]
    s.emit (Event.start c (w.startOk c))
  else
    let c := command "xdg-open" [url]
    s.emit (Event.start c (w.startOk c))

/-- Result of one execution of the launcher. -/
structure Outcome where
  /-- Process environment when the launcher exits. -/
  env : Env
  /-- All events, in program order. -/
  trace : List Event
  /-- Process exit status. -/
  exitCode : Nat
  /-- For every event of `trace`, in the same order, the environment in which
  it happened. -/
  seen : List Env
  /-- Every `os.Setenv` call of the run, in order, as key and value. -/
  setenvs : List (String × String)

/-- The whole of `main`. -/
def main (w : World) (env₀ : Env) : Outcome :=
  let dir := w.exeDir
  let s : State := { env := env₀, trace := [] }
  let s := applyDefaults s
  let s := s.println ["CRM Launcher - starting services..."]
  let s := s.println ["Project dir:", dir]
  match startServices w dir s with
  | (s, some code) =>
    { env := s.env, trace := s.trace, exitCode := code, seen := s.seen, setenvs := s.setenvs }
  | (s, none) =>
    let url := targetUrl s.env
    let s := s.println ["Waiting for app to be ready..."]
    let s := s.emit (Event.sleep 15)
    let s := openBrowser w url s
    let s := s.println ["CRM is running at", url]
    let s := s.println ["To stop: run Stop-CRM.bat or: docker compose down"]
    { env := s.env, trace := s.trace, exitCode := 0, seen := s.seen, setenvs := s.setenvs }

/-! ## Observations on a trace -/

/-- The commands passed to `cmd.Run()`, in order. -/
def runs : List Event → List Cmd
  | [] => []
  | Event.run c _ :: es => c :: runs es
  | _ :: es => runs es

/-- The commands passed to `cmd.Start()`, in order. -/
def starts : List Event → List Cmd
  | [] => []
  | Event.start c _ :: es => c :: starts es
  | _ :: es => starts es

/-- The sleeps, in order, in seconds. -/
def sleeps : List Event → List Nat
  | [] => []
  | Event.sleep n :: es => n :: sleeps es
  | _ :: es => sleeps es

/-- The console lines written by the launcher itself, in order. -/
def printed : List Event → List String
  | [] => []
  | Event.println l :: es => l :: printed es
  | _ :: es => printed es

/-- The line `line` contains `part` as a contiguous substring. -/
def Contains (line part : String) : Prop :=
  part.data <:+: line.data

instance (line part : String) : Decidable (Contains line part) := by
  unfold Contains; infer_instance

/-- A world for examples: Linux host, both start commands succeed. -/
def linuxWorld : World :=
  { goos := "linux", exeDir := "/opt/crm", runOk := fun _ => true, startOk := fun _ => true }

/-- A world for examples: Linux host, no start command succeeds. -/
def brokenWorld : World :=
  { goos := "linux", exeDir := "/opt/crm", runOk := fun _ => false, startOk := fun _ => false }

/-- A world for examples: Windows host, only the legacy `docker-compose`
program works, and the browser opener cannot be started. -/
def legacyWorld : World :=
  { goos := "windows", exeDir := "C:\\crm",
    runOk := fun c => decide (c.name = "docker-compose"), startOk := fun _ => false }

/-- Lines 34-35 as events: the two lines printed before the services are
started. -/
def preamble (w : World) : List Event :=
  [Event.println "CRM Launcher - starting services...",
   Event.println ("Project dir: " ++ w.exeDir)]

/-- Lines 59-73 as events, for browser command `c` and URL `url`: the wait
notice, the sleep, the browser dispatch, and the two closing lines. -/
def epilogue (w : World) (c : Cmd) (url : String) : List Event :=
  [Event.println "Waiting for app to be ready...",
   Event.sleep 15,
   Event.start c (w.startOk c),
   Event.println ("CRM is running at " ++ url),
   Event.println "To stop: run Stop-CRM.bat or: docker compose down"]

/-! ## Lemmas about the individual steps -/

theorem defaultEnv_trace (s : State) (key dflt : String) :
    (s.defaultEnv key dflt).trace = s.trace := by
  unfold State.defaultEnv
  split <;> rfl

theorem applyDefaults_trace (s : State) : (applyDefaults s).trace = s.trace := by
  simp [applyDefaults, defaultEnv_trace]

/-- The value of a variable after one defaulting statement. -/
theorem defaultEnv_env (s : State) (key dflt k : String) :
    (s.defaultEnv key dflt).env k
      = if k = key ∧ getenv s.env key = "" then some dflt else s.env k := by
  unfold State.defaultEnv
  by_cases h : getenv s.env key = ""
  · by_cases hk : k = key <;> simp [h, hk, setenv, State.setenv]
  · simp [h]

/-- The environment after the defaulting step, variable by variable. -/
theorem applyDefaults_env (env : Env) (t : List Event) (k : String) :
    (applyDefaults { env := env, trace := t }).env k
      = if k = "CRM2_OLLAMA_PORT" ∧ getenv env "CRM2_OLLAMA_PORT" = "" then some "11435"
        else if k = "CRM2_POSTGRES_PORT" ∧ getenv env "CRM2_POSTGRES_PORT" = "" then some "5434"
        else if k = "CRM2_FRONTEND_PORT" ∧ getenv env "CRM2_FRONTEND_PORT" = "" then some "5173"
        else if k = "CRM2_BACKEND_PORT" ∧ getenv env "CRM2_BACKEND_PORT" = "" then some "3002"
        else env k := by
  have h1 : ∀ (s : State) (key dflt k' : String), k' ≠ key →
      getenv (s.defaultEnv key dflt).env k' = getenv s.env k' := by
    intro s key dflt k' hk
    simp [getenv, defaultEnv_env, hk]
  simp only [applyDefaults, defaultEnv_env]
  rw [h1 _ _ _ _ (by decide), h1 _ _ _ _ (by decide), h1 _ _ _ _ (by decide),
    h1 _ _ _ _ (by decide), h1 _ _ _ _ (by decide), h1 _ _ _ _ (by decide)]

theorem applyDefaults_env_irrel (env : Env) (t : List Event) :
    (applyDefaults { env := env, trace := t }).env
      = (applyDefaults { env := env, trace := [] }).env := by
  funext k
  rw [applyDefaults_env, applyDefaults_env]

theorem startServices_env (w : World) (dir : String) (s : State) :
    (startServices w dir s).1.env = s.env := by
  unfold startServices
  simp only [State.println, State.emit]
  split
  · rfl
  · split <;> rfl

/-- The browser step in any state: the command depends on the host OS name
and the URL only. -/
theorem openBrowser_eq (w : World) (url : String) :
    ∃ c : Cmd, (∀ s : State, openBrowser w url s = s.emit (Event.start c (w.startOk c)))
      ∧ c.args.getLast? = some url
      ∧ (w.goos = "windows" → c = command "cmd" ["/c", "start", "", url])
      ∧ (w.goos = "darwin" → c = command "open" [url])
      ∧ (w.goos ≠ "windows" → w.goos ≠ "darwin" → c = command "xdg-open" [url]) := by
  by_cases h1 : w.goos = "windows"
  · refine ⟨command "cmd" ["/c", "start", "", url], ?_, ?_, ?_, ?_, ?_⟩
    · intro s; simp [openBrowser, h1]
    · simp [command]
    · intro _; rfl
    · intro h2; rw [h1] at h2; exact absurd h2 (by decide)
    · intro h2; exact absurd h1 h2
  · by_cases h2 : w.goos = "darwin"
    · refine ⟨command "open" [url], ?_, ?_, ?_, ?_, ?_⟩
      · intro s; simp [openBrowser, h1, h2]
      · simp [command]
      · intro h; exact absurd h h1
      · intro _; rfl
      · intro _ h; exact absurd h2 h
    · refine ⟨command "xdg-open" [url], ?_, ?_, ?_, ?_, ?_⟩
      · intro s; simp [openBrowser, h1, h2]
      · simp [command]
      · intro h; exact absurd h h1
      · intro h; exact absurd h h2
      · intro _ _; rfl

/-- The browser step appends exactly one `start` event, for a command chosen
by the host OS name whose last argument is the URL. -/
theorem openBrowser_spec (w : World) (url : String) (s : State) :
    ∃ c : Cmd, openBrowser w url s = s.emit (Event.start c (w.startOk c))
      ∧ c.args.getLast? = some url
      ∧ (w.goos = "windows" → c = command "cmd" ["/c", "start", "", url])
      ∧ (w.goos = "darwin" → c = command "open" [url])
      ∧ (w.goos ≠ "windows" → w.goos ≠ "darwin" → c = command "xdg-open" [url]) := by
  unfold openBrowser
  by_cases h1 : w.goos = "windows"
  · refine ⟨command "cmd" ["/c", "start", "", url], ?_, ?_, ?_, ?_, ?_⟩
    · simp [h1]
    · simp [command]
    · intro _; rfl
    · intro h2; rw [h1] at h2; exact absurd h2 (by decide)
    · intro h2; exact absurd h1 h2
  · by_cases h2 : w.goos = "darwin"
    · refine ⟨command "open" [url], ?_, ?_, ?_, ?_, ?_⟩
      · simp [h1, h2]
      · simp [command]
      · intro h; exact absurd h h1
      · intro _; rfl
      · intro _ h; exact absurd h2 h
    · refine ⟨command "xdg-open" [url], ?_, ?_, ?_, ?_, ?_⟩
      · simp [h1, h2]
      · simp [command]
      · intro h; exact absurd h h1
      · intro h; exact absurd h h2
      · intro _ _; rfl

/-! ## The three possible executions -/

theorem println_one (s : State) (a : String) :
    s.println [a] = s.emit (Event.println a) := by
  simp [State.println, String.intercalate, String.intercalate.go]

theorem println_two (s : State) (a b : String) :
    s.println [a, b] = s.emit (Event.println (a ++ " " ++ b)) := by
  simp [State.println, String.intercalate, String.intercalate.go]

/-- Both start commands fail. -/
theorem main_both_fail (w : World) (env : Env)
    (hp : w.runOk (primaryCmd w.exeDir) = false)
    (hf : w.runOk (fallbackCmd w.exeDir) = false) :
    (main w env).exitCode = 1
      ∧ (main w env).env = (applyDefaults { env := env, trace := [] }).env
      ∧ (main w env).trace = preamble w ++
          [Event.run (primaryCmd w.exeDir) false, Event.run (fallbackCmd w.exeDir) false,
           Event.println "Failed to start containers. Is Docker Desktop running?"] := by
  simp [main, startServices, hp, hf, println_one, println_two, State.emit,
    applyDefaults_trace, preamble]

/-- The primary start command succeeds. -/
theorem main_primary_ok (w : World) (env : Env)
    (hp : w.runOk (primaryCmd w.exeDir) = true) :
    ∃ c : Cmd,
      (c.args.getLast? = some (targetUrl (applyDefaults { env := env, trace := [] }).env)
        ∧ (w.goos = "windows" → c = command "cmd"
            ["/c", "start", "", targetUrl (applyDefaults { env := env, trace := [] }).env])
        ∧ (w.goos = "darwin" → c = command "open"
            [targetUrl (applyDefaults { env := env, trace := [] }).env])
        ∧ (w.goos ≠ "windows" → w.goos ≠ "darwin" → c = command "xdg-open"
            [targetUrl (applyDefaults { env := env, trace := [] }).env]))
      ∧ (main w env).exitCode = 0
      ∧ (main w env).env = (applyDefaults { env := env, trace := [] }).env
      ∧ (main w env).trace = preamble w ++ [Event.run (primaryCmd w.exeDir) true]
          ++ epilogue w c (targetUrl (applyDefaults { env := env, trace := [] }).env) := by
  obtain ⟨c, hc, hrest⟩ := openBrowser_eq w
    (targetUrl (applyDefaults { env := env, trace := [] }).env)
  refine ⟨c, hrest, ?_, ?_, ?_⟩
  · simp [main, startServices, hp]
  · simp [main, startServices, hp, println_one, println_two, State.emit, hc,
      applyDefaults_trace, preamble]
  · simp [main, startServices, hp, println_one, println_two, State.emit, hc,
      applyDefaults_trace, preamble, epilogue]

/-- The primary start command fails and the fallback succeeds. -/
theorem main_fallback_ok (w : World) (env : Env)
    (hp : w.runOk (primaryCmd w.exeDir) = false)
    (hf : w.runOk (fallbackCmd w.exeDir) = true) :
    ∃ c : Cmd,
      (c.args.getLast? = some (targetUrl (applyDefaults { env := env, trace := [] }).env)
        ∧ (w.goos = "windows" → c = command "cmd"
            ["/c", "start", "", targetUrl (applyDefaults { env := env, trace := [] }).env])
        ∧ (w.goos = "darwin" → c = command "open"
            [targetUrl (applyDefaults { env := env, trace := [] }).env])
        ∧ (w.goos ≠ "windows" → w.goos ≠ "darwin" → c = command "xdg-open"
            [targetUrl (applyDefaults { env := env, trace := [] }).env]))
      ∧ (main w env).exitCode = 0
      ∧ (main w env).env = (applyDefaults { env := env, trace := [] }).env
      ∧ (main w env).trace = preamble w ++
          [Event.run (primaryCmd w.exeDir) false, Event.run (fallbackCmd w.exeDir) true]
          ++ epilogue w c (targetUrl (applyDefaults { env := env, trace := [] }).env) := by
  obtain ⟨c, hc, hrest⟩ := openBrowser_eq w
    (targetUrl (applyDefaults { env := env, trace := [] }).env)
  refine ⟨c, hrest, ?_, ?_, ?_⟩
  · simp [main, startServices, hp, hf]
  · simp [main, startServices, hp, hf, println_one, println_two, State.emit, hc,
      applyDefaults_trace, preamble]
  · simp [main, startServices, hp, hf, println_one, println_two, State.emit, hc,
      applyDefaults_trace, preamble, epilogue]

/-- A variable whose `os.Getenv` value is non-empty is set to that value. -/
theorem getenv_ne_empty {env : Env} {k : String} (h : getenv env k ≠ "") :
    ∃ v, env k = some v ∧ v ≠ "" := by
  unfold getenv at h
  cases hk : env k with
  | none => simp [hk] at h
  | some v => exact ⟨v, rfl, by simpa [hk] using h⟩

/-- After the defaulting step each port variable is set and non-empty. -/
theorem applyDefaults_present (env : Env) (t : List Event) (k : String)
    (hk : k ∈ ["CRM2_BACKEND_PORT", "CRM2_FRONTEND_PORT", "CRM2_POSTGRES_PORT",
      "CRM2_OLLAMA_PORT"]) :
    ∃ v, (applyDefaults { env := env, trace := t }).env k = some v ∧ v ≠ "" := by
  rw [applyDefaults_env]
  simp only [List.mem_cons, List.mem_singleton, List.not_mem_nil, or_false] at hk
  rcases hk with rfl | rfl | rfl | rfl
  · by_cases h : getenv env "CRM2_BACKEND_PORT" = ""
    · exact ⟨"3002", by simp [h], by decide⟩
    · obtain ⟨v, hv, hne⟩ := getenv_ne_empty h
      exact ⟨v, by simp [h, hv], hne⟩
  · by_cases h : getenv env "CRM2_FRONTEND_PORT" = ""
    · exact ⟨"5173", by simp [h], by decide⟩
    · obtain ⟨v, hv, hne⟩ := getenv_ne_empty h
      exact ⟨v, by simp [h, hv], hne⟩
  · by_cases h : getenv env "CRM2_POSTGRES_PORT" = ""
    · exact ⟨"5434", by simp [h], by decide⟩
    · obtain ⟨v, hv, hne⟩ := getenv_ne_empty h
      exact ⟨v, by simp [h, hv], hne⟩
  · by_cases h : getenv env "CRM2_OLLAMA_PORT" = ""
    · exact ⟨"11435", by simp [h], by decide⟩
    · obtain ⟨v, hv, hne⟩ := getenv_ne_empty h
      exact ⟨v, by simp [h, hv], hne⟩

/-- After the defaulting step the re-defaulting branch of the URL step is dead:
the URL is built from the frontend variable as it stands. -/
theorem targetUrl_applyDefaults (env : Env) (t : List Event) :
    getenv (applyDefaults { env := env, trace := t }).env "CRM2_FRONTEND_PORT" ≠ ""
      ∧ targetUrl (applyDefaults { env := env, trace := t }).env
          = "http://localhost:"
              ++ getenv (applyDefaults { env := env, trace := t }).env "CRM2_FRONTEND_PORT" := by
  obtain ⟨v, hv, hne⟩ := applyDefaults_present env t "CRM2_FRONTEND_PORT" (by simp)
  have h : getenv (applyDefaults { env := env, trace := t }).env "CRM2_FRONTEND_PORT" = v := by
    simp [getenv, hv]
  refine ⟨by rw [h]; exact hne, ?_⟩
  simp [targetUrl, h, hne]

/-- The final environment of every execution is the one produced by the
defaulting step. -/
theorem main_env (w : World) (env : Env) :
    (main w env).env = (applyDefaults { env := env, trace := [] }).env := by
  cases hp : w.runOk (primaryCmd w.exeDir) with
  | true =>
    obtain ⟨_, _, _, h, _⟩ := main_primary_ok w env hp
    exact h
  | false =>
    cases hf : w.runOk (fallbackCmd w.exeDir) with
    | true =>
      obtain ⟨_, _, _, h, _⟩ := main_fallback_ok w env hp hf
      exact h
    | false => exact (main_both_fail w env hp hf).2.1

theorem openBrowser_env (w : World) (url : String) (s : State) :
    (openBrowser w url s).env = s.env := by
  obtain ⟨c, hc, _⟩ := openBrowser_spec w url s
  rw [hc]; rfl

theorem runs_append (a b : List Event) : runs (a ++ b) = runs a ++ runs b := by
  induction a with
  | nil => rfl
  | cons e es ih => cases e <;> simp [runs, ih]

theorem starts_append (a b : List Event) : starts (a ++ b) = starts a ++ starts b := by
  induction a with
  | nil => rfl
  | cons e es ih => cases e <;> simp [starts, ih]

theorem sleeps_append (a b : List Event) : sleeps (a ++ b) = sleeps a ++ sleeps b := by
  induction a with
  | nil => rfl
  | cons e es ih => cases e <;> simp [sleeps, ih]

theorem printed_append (a b : List Event) : printed (a ++ b) = printed a ++ printed b := by
  induction a with
  | nil => rfl
  | cons e es ih => cases e <;> simp [printed, ih]

/-- Some start command succeeds: the execution is the preamble, one or two
`run` events, and the epilogue, with exit status 0. -/
theorem main_success (w : World) (env : Env)
    (h : w.runOk (primaryCmd w.exeDir) = true ∨ w.runOk (fallbackCmd w.exeDir) = true) :
    ∃ (c : Cmd) (mid : List Event),
      (c.args.getLast? = some (targetUrl (applyDefaults { env := env, trace := [] }).env)
        ∧ (w.goos = "windows" → c = command "cmd"
            ["/c", "start", "", targetUrl (applyDefaults { env := env, trace := [] }).env])
        ∧ (w.goos = "darwin" → c = command "open"
            [targetUrl (applyDefaults { env := env, trace := [] }).env])
        ∧ (w.goos ≠ "windows" → w.goos ≠ "darwin" → c = command "xdg-open"
            [targetUrl (applyDefaults { env := env, trace := [] }).env]))
      ∧ (mid = [Event.run (primaryCmd w.exeDir) true]
          ∨ mid = [Event.run (primaryCmd w.exeDir) false, Event.run (fallbackCmd w.exeDir) true])
      ∧ (main w env).exitCode = 0
      ∧ (main w env).trace = preamble w ++ mid
          ++ epilogue w c (targetUrl (applyDefaults { env := env, trace := [] }).env) := by
  cases hp : w.runOk (primaryCmd w.exeDir) with
  | true =>
    obtain ⟨c, hc, hx, _, ht⟩ := main_primary_ok w env hp
    exact ⟨c, _, hc, Or.inl rfl, hx, ht⟩
  | false =>
    have hf : w.runOk (fallbackCmd w.exeDir) = true := by
      rcases h with h | h
      · rw [hp] at h; exact absurd h (by decide)
      · exact h
    obtain ⟨c, hc, hx, _, ht⟩ := main_fallback_ok w env hp hf
    exact ⟨c, _, hc, Or.inr rfl, hx, ht⟩

theorem defaultEnv_seen (s : State) (key dflt : String) :
    (s.defaultEnv key dflt).seen = s.seen := by
  unfold State.defaultEnv
  split <;> rfl

theorem applyDefaults_seen (s : State) : (applyDefaults s).seen = s.seen := by
  simp [applyDefaults, defaultEnv_seen]

/-- Every event of a run happens in the environment produced by the defaulting
step: the record of environments has one entry per event, each equal to that
environment. -/
theorem main_seen (w : World) (env : Env) :
    (main w env).seen = List.replicate (main w env).trace.length
      (applyDefaults { env := env, trace := [] }).env := by
  obtain ⟨c, hc, _⟩ := openBrowser_eq w
    (targetUrl (applyDefaults { env := env, trace := [] }).env)
  cases hp : w.runOk (primaryCmd w.exeDir) with
  | true =>
    simp [main, startServices, hp, println_one, println_two, State.emit, hc,
      applyDefaults_trace, applyDefaults_seen, List.replicate]
  | false =>
    cases hf : w.runOk (fallbackCmd w.exeDir) with
    | true =>
      simp [main, startServices, hp, hf, println_one, println_two, State.emit, hc,
        applyDefaults_trace, applyDefaults_seen, List.replicate]
    | false =>
      simp [main, startServices, hp, hf, println_one, println_two, State.emit,
        applyDefaults_trace, applyDefaults_seen, List.replicate]

theorem mem_defaultEnv_setenvs (s : State) (key dflt : String) (p : String × String)
    (h : p ∈ (s.defaultEnv key dflt).setenvs) : p ∈ s.setenvs ∨ p = (key, dflt) := by
  unfold State.defaultEnv at h
  split at h
  · simpa [State.setenv] using h
  · exact Or.inl h

/-- The defaulting step calls `os.Setenv` only with a port variable and its
default. -/
theorem mem_applyDefaults_setenvs (env : Env) (p : String × String)
    (h : p ∈ (applyDefaults { env := env, trace := [] }).setenvs) :
    p ∈ [("CRM2_BACKEND_PORT", "3002"), ("CRM2_FRONTEND_PORT", "5173"),
      ("CRM2_POSTGRES_PORT", "5434"), ("CRM2_OLLAMA_PORT", "11435")] := by
  unfold applyDefaults at h
  rcases mem_defaultEnv_setenvs _ _ _ _ h with h | rfl
  · rcases mem_defaultEnv_setenvs _ _ _ _ h with h | rfl
    · rcases mem_defaultEnv_setenvs _ _ _ _ h with h | rfl
      · rcases mem_defaultEnv_setenvs _ _ _ _ h with h | rfl
        · simp at h
        · simp
      · simp
    · simp
  · simp

/-- The `os.Setenv` calls of a run are exactly those of the defaulting step. -/
theorem main_setenvs (w : World) (env : Env) :
    (main w env).setenvs = (applyDefaults { env := env, trace := [] }).setenvs := by
  obtain ⟨c, hc, _⟩ := openBrowser_eq w
    (targetUrl (applyDefaults { env := env, trace := [] }).env)
  cases hp : w.runOk (primaryCmd w.exeDir) with
  | true =>
    simp [main, startServices, hp, println_one, println_two, State.emit, hc]
  | false =>
    cases hf : w.runOk (fallbackCmd w.exeDir) with
    | true =>
      simp [main, startServices, hp, hf, println_one, println_two, State.emit, hc]
    | false =>
      simp [main, startServices, hp, hf, println_one, println_two, State.emit]

/-! ## Claims -/

/-- C3 (as stated, refuted): with `CRM2_BACKEND_PORT` explicitly set to the
empty string, the defaulting step overwrites it with `"3002"`, so the value
after the step is no longer the value that was set. -/
theorem set_empty_value_is_overwritten :
    (setenv emptyEnv "CRM2_BACKEND_PORT" "") "CRM2_BACKEND_PORT" = some ""
      ∧ (applyDefaults { env := setenv emptyEnv "CRM2_BACKEND_PORT" "", trace := [] }).env
          "CRM2_BACKEND_PORT" = some "3002"
      ∧ (applyDefaults { env := setenv emptyEnv "CRM2_BACKEND_PORT" "", trace := [] }).env
          "CRM2_BACKEND_PORT" ≠ some "" := by
  refine ⟨by decide, by decide, by decide⟩

/-- C3 (amended): for each of the four port variables and every non-empty
string `V`, if the variable is set to `V` before launch then after the
defaulting step (and in the environment the launcher ends with) it is still
`V`. -/
theorem set_nonempty_value_is_kept (w : World) (env : Env) (k V : String)
    (hk : k ∈ ["CRM2_BACKEND_PORT", "CRM2_FRONTEND_PORT", "CRM2_POSTGRES_PORT",
      "CRM2_OLLAMA_PORT"])
    (hV : V ≠ "") (hset : env k = some V) :
    (applyDefaults { env := env, trace := [] }).env k = some V
      ∧ (main w env).env k = some V := by
  have key : (applyDefaults { env := env, trace := [] }).env k = some V := by
    rw [applyDefaults_env]
    simp only [List.mem_cons, List.mem_singleton, List.not_mem_nil, or_false] at hk
    rcases hk with rfl | rfl | rfl | rfl <;> simp [getenv, hset, hV]
  exact ⟨key, by rw [main_env]; exact key⟩

/-- Instance of the amended C3: the frontend port set to `"8080"` on a Linux host. -/
theorem set_nonempty_value_is_kept_witness :
    (applyDefaults { env := setenv emptyEnv "CRM2_FRONTEND_PORT" "8080", trace := [] }).env
        "CRM2_FRONTEND_PORT" = some "8080"
      ∧ (main linuxWorld (setenv emptyEnv "CRM2_FRONTEND_PORT" "8080")).env
        "CRM2_FRONTEND_PORT" = some "8080" :=
  set_nonempty_value_is_kept linuxWorld (setenv emptyEnv "CRM2_FRONTEND_PORT" "8080")
    "CRM2_FRONTEND_PORT" "8080" (by decide) (by decide) (by decide)

/-- C4: each of the four port variables that is unset in the initial
environment holds its fixed default after the defaulting step: backend
`"3002"`, frontend `"5173"`, postgres `"5434"`, ollama `"11435"`. -/
theorem unset_variable_gets_default (env : Env) :
    (env "CRM2_BACKEND_PORT" = none →
        (applyDefaults { env := env, trace := [] }).env "CRM2_BACKEND_PORT" = some "3002")
      ∧ (env "CRM2_FRONTEND_PORT" = none →
        (applyDefaults { env := env, trace := [] }).env "CRM2_FRONTEND_PORT" = some "5173")
      ∧ (env "CRM2_POSTGRES_PORT" = none →
        (applyDefaults { env := env, trace := [] }).env "CRM2_POSTGRES_PORT" = some "5434")
      ∧ (env "CRM2_OLLAMA_PORT" = none →
        (applyDefaults { env := env, trace := [] }).env "CRM2_OLLAMA_PORT" = some "11435") := by
  refine ⟨?_, ?_, ?_, ?_⟩ <;> intro h <;> rw [applyDefaults_env] <;> simp [getenv, h]

/-- Instance of C4: the empty environment. -/
theorem unset_variable_gets_default_witness :
    (applyDefaults { env := emptyEnv, trace := [] }).env "CRM2_BACKEND_PORT" = some "3002"
      ∧ (applyDefaults { env := emptyEnv, trace := [] }).env "CRM2_FRONTEND_PORT" = some "5173"
      ∧ (applyDefaults { env := emptyEnv, trace := [] }).env "CRM2_POSTGRES_PORT" = some "5434"
      ∧ (applyDefaults { env := emptyEnv, trace := [] }).env "CRM2_OLLAMA_PORT" = some "11435" :=
  ⟨(unset_variable_gets_default emptyEnv).1 rfl,
   (unset_variable_gets_default emptyEnv).2.1 rfl,
   (unset_variable_gets_default emptyEnv).2.2.1 rfl,
   (unset_variable_gets_default emptyEnv).2.2.2 rfl⟩

/-- C8: after the defaulting step every one of the four port variables is set
to a non-empty string, and this stays so for the rest of the run: every event
of `main` after that step (each line printed, each start command run, the
sleep, the browser dispatch) happens in exactly the environment the defaulting
step produced, the only `os.Setenv` calls of the run are those of the
defaulting step, the start step, the browser step and printing leave the
environment as it is, and the environment the launcher ends with is the same
one. -/
theorem ports_present_and_nonempty (w : World) (env : Env) (k : String)
    (hk : k ∈ ["CRM2_BACKEND_PORT", "CRM2_FRONTEND_PORT", "CRM2_POSTGRES_PORT",
      "CRM2_OLLAMA_PORT"]) :
    (∃ v, (applyDefaults { env := env, trace := [] }).env k = some v ∧ v ≠ "")
      ∧ (∀ (dir : String) (s : State), (startServices w dir s).1.env = s.env)
      ∧ (∀ (url : String) (s : State), (openBrowser w url s).env = s.env)
      ∧ (∀ (e : Event) (s : State), (s.emit e).env = s.env)
      ∧ (∀ (l : List String) (s : State), (s.println l).env = s.env)
      ∧ (main w env).env = (applyDefaults { env := env, trace := [] }).env
      ∧ (∃ v, (main w env).env k = some v ∧ v ≠ "")
      ∧ (main w env).seen.length = (main w env).trace.length
      ∧ (∀ e ∈ (main w env).seen, e = (applyDefaults { env := env, trace := [] }).env)
      ∧ (∀ e ∈ (main w env).seen, ∃ v, e k = some v ∧ v ≠ "")
      ∧ (main w env).setenvs = (applyDefaults { env := env, trace := [] }).setenvs
      ∧ (∀ p ∈ (main w env).setenvs,
          p ∈ [("CRM2_BACKEND_PORT", "3002"), ("CRM2_FRONTEND_PORT", "5173"),
            ("CRM2_POSTGRES_PORT", "5434"), ("CRM2_OLLAMA_PORT", "11435")]) := by
  have hseen : ∀ e ∈ (main w env).seen,
      e = (applyDefaults { env := env, trace := [] }).env := by
    intro e he
    rw [main_seen] at he
    exact List.eq_of_mem_replicate he
  refine ⟨applyDefaults_present env [] k hk, startServices_env w, openBrowser_env w,
    fun _ _ => rfl, fun _ _ => rfl, main_env w env, ?_, ?_, hseen, ?_, main_setenvs w env, ?_⟩
  · rw [main_env]
    exact applyDefaults_present env [] k hk
  · rw [main_seen, List.length_replicate]
  · intro e he
    rw [hseen e he]
    exact applyDefaults_present env [] k hk
  · intro p hp
    rw [main_setenvs] at hp
    exact mem_applyDefaults_setenvs env p hp

/-- Instance of C8: `CRM2_OLLAMA_PORT` set to the empty string, fallback run. -/
theorem ports_present_and_nonempty_witness :
    (main legacyWorld (setenv emptyEnv "CRM2_OLLAMA_PORT" "")).seen.length
        = (main legacyWorld (setenv emptyEnv "CRM2_OLLAMA_PORT" "")).trace.length
      ∧ (∀ e ∈ (main legacyWorld (setenv emptyEnv "CRM2_OLLAMA_PORT" "")).seen,
          ∃ v, e "CRM2_OLLAMA_PORT" = some v ∧ v ≠ "")
      ∧ (∃ v, (main legacyWorld (setenv emptyEnv "CRM2_OLLAMA_PORT" "")).env
          "CRM2_OLLAMA_PORT" = some v ∧ v ≠ "") :=
  have h := ports_present_and_nonempty legacyWorld (setenv emptyEnv "CRM2_OLLAMA_PORT" "")
    "CRM2_OLLAMA_PORT" (by decide)
  ⟨h.2.2.2.2.2.2.2.1, h.2.2.2.2.2.2.2.2.2.1, h.2.2.2.2.2.2.1⟩

/-- C1: if both the primary and the fallback start command fail, the launcher
exits with status 1, the failure message is printed (it is the last event of
the run), and the trace holds no browser-open dispatch and no wait. -/
theorem both_start_commands_fail (w : World) (env : Env)
    (hp : w.runOk (primaryCmd w.exeDir) = false)
    (hf : w.runOk (fallbackCmd w.exeDir) = false) :
    (main w env).exitCode = 1
      ∧ "Failed to start containers. Is Docker Desktop running?" ∈ printed (main w env).trace
      ∧ (main w env).trace.getLast?
          = some (Event.println "Failed to start containers. Is Docker Desktop running?")
      ∧ starts (main w env).trace = []
      ∧ sleeps (main w env).trace = [] := by
  obtain ⟨hx, _, ht⟩ := main_both_fail w env hp hf
  refine ⟨hx, ?_, ?_, ?_, ?_⟩ <;> rw [ht] <;> simp [preamble, printed, starts, sleeps]

/-- Instance of C1: a host on which no start command works. -/
theorem both_start_commands_fail_witness :
    (main brokenWorld emptyEnv).exitCode = 1
      ∧ "Failed to start containers. Is Docker Desktop running?"
          ∈ printed (main brokenWorld emptyEnv).trace
      ∧ (main brokenWorld emptyEnv).trace.getLast?
          = some (Event.println "Failed to start containers. Is Docker Desktop running?")
      ∧ starts (main brokenWorld emptyEnv).trace = []
      ∧ sleeps (main brokenWorld emptyEnv).trace = [] :=
  both_start_commands_fail brokenWorld emptyEnv rfl rfl

/-- C2 (as stated, refuted): when the primary command fails the two `run`
calls are `docker compose up -d --build` and `docker-compose up -d --build`;
their argument lists differ, both as passed to `exec.Command` after the
program name and as the full argument vector with the program name first. -/
theorem fallback_arguments_differ :
    brokenWorld.runOk (primaryCmd brokenWorld.exeDir) = false
      ∧ runs (main brokenWorld emptyEnv).trace
          = [{ name := "docker", args := ["compose", "up", "-d", "--build"], dir := "/opt/crm" },
             { name := "docker-compose", args := ["up", "-d", "--build"], dir := "/opt/crm" }]
      ∧ (fallbackCmd "/opt/crm").args ≠ (primaryCmd "/opt/crm").args
      ∧ (fallbackCmd "/opt/crm").name :: (fallbackCmd "/opt/crm").args
          ≠ (primaryCmd "/opt/crm").name :: (primaryCmd "/opt/crm").args := by
  refine ⟨by decide, by decide, by decide, by decide⟩

/-- C2 (amended): if the primary start command fails, exactly two start
commands are run, the primary and then the fallback once; the fallback has the
same working directory as the primary, its program is `docker-compose` and its
arguments are `up -d --build`, which are the primary's arguments
(`compose up -d --build`, to program `docker`) without the leading `compose`. -/
theorem fallback_runs_once_in_same_dir (w : World) (env : Env)
    (hp : w.runOk (primaryCmd w.exeDir) = false) :
    runs (main w env).trace = [primaryCmd w.exeDir, fallbackCmd w.exeDir]
      ∧ (fallbackCmd w.exeDir).dir = (primaryCmd w.exeDir).dir
      ∧ (fallbackCmd w.exeDir).dir = w.exeDir
      ∧ (primaryCmd w.exeDir).name = "docker"
      ∧ (fallbackCmd w.exeDir).name = "docker-compose"
      ∧ (fallbackCmd w.exeDir).args = ["up", "-d", "--build"]
      ∧ (primaryCmd w.exeDir).args = "compose" :: (fallbackCmd w.exeDir).args := by
  refine ⟨?_, rfl, rfl, rfl, rfl, rfl, rfl⟩
  cases hf : w.runOk (fallbackCmd w.exeDir) with
  | false =>
    rw [(main_both_fail w env hp hf).2.2]
    simp [preamble, runs]
  | true =>
    obtain ⟨c, _, _, _, ht⟩ := main_fallback_ok w env hp hf
    rw [ht]
    simp [preamble, epilogue, runs]

/-- Instance of the amended C2: a Windows host with only `docker-compose`. -/
theorem fallback_runs_once_in_same_dir_witness :
    runs (main legacyWorld emptyEnv).trace
      = [primaryCmd "C:\\crm", fallbackCmd "C:\\crm"] :=
  (fallback_runs_once_in_same_dir legacyWorld emptyEnv (by decide)).1

/-- C5: whenever some start command succeeds, the URL the launcher computes
from its environment is `"http://localhost:"` followed by the value of
`CRM2_FRONTEND_PORT` after the defaulting step; that value is never empty (so
the re-defaulting branch of the URL step does not fire), and this URL is the
last argument of the one browser-open command and is in the line printed. -/
theorem target_url_is_localhost_frontend_port (w : World) (env : Env)
    (h : w.runOk (primaryCmd w.exeDir) = true ∨ w.runOk (fallbackCmd w.exeDir) = true) :
    getenv (applyDefaults { env := env, trace := [] }).env "CRM2_FRONTEND_PORT" ≠ ""
      ∧ targetUrl (main w env).env = "http://localhost:"
          ++ getenv (applyDefaults { env := env, trace := [] }).env "CRM2_FRONTEND_PORT"
      ∧ (∃ c : Cmd, starts (main w env).trace = [c]
          ∧ c.args.getLast? = some ("http://localhost:"
              ++ getenv (applyDefaults { env := env, trace := [] }).env "CRM2_FRONTEND_PORT"))
      ∧ ("CRM is running at " ++ ("http://localhost:"
            ++ getenv (applyDefaults { env := env, trace := [] }).env "CRM2_FRONTEND_PORT"))
          ∈ printed (main w env).trace := by
  obtain ⟨hne, hurl⟩ := targetUrl_applyDefaults env []
  obtain ⟨c, mid, ⟨hlast, _⟩, hmid, _, ht⟩ := main_success w env h
  rw [hurl] at hlast ht
  refine ⟨hne, by rw [main_env, hurl], ⟨c, ?_, hlast⟩, ?_⟩
  · rw [ht]
    rcases hmid with rfl | rfl <;> simp [preamble, epilogue, starts]
  · rw [ht]
    rcases hmid with rfl | rfl <;> simp [preamble, epilogue, printed]

/-- Instance of C5: the frontend port set to `"8080"`, fallback run. -/
theorem target_url_is_localhost_frontend_port_witness :
    targetUrl (main legacyWorld (setenv emptyEnv "CRM2_FRONTEND_PORT" "8080")).env
      = "http://localhost:" ++ getenv (applyDefaults
          { env := setenv emptyEnv "CRM2_FRONTEND_PORT" "8080", trace := [] }).env
          "CRM2_FRONTEND_PORT" :=
  (target_url_is_localhost_frontend_port legacyWorld
    (setenv emptyEnv "CRM2_FRONTEND_PORT" "8080") (Or.inr (by decide))).2.1

/-- C6: whenever the primary or the fallback start command succeeds, for every
host OS and every outcome of the browser-open command, the trace has exactly
one sleep, of 15 seconds, and exactly one browser-open dispatch, the sleep
comes strictly before the dispatch, and the exit status is 0. -/
theorem wait_precedes_browser_open (w : World) (env : Env)
    (h : w.runOk (primaryCmd w.exeDir) = true ∨ w.runOk (fallbackCmd w.exeDir) = true) :
    (main w env).exitCode = 0
      ∧ ∃ (c : Cmd) (before between after : List Event),
          (main w env).trace
              = before ++ Event.sleep 15 :: (between ++ Event.start c (w.startOk c) :: after)
            ∧ sleeps (main w env).trace = [15]
            ∧ starts (main w env).trace = [c] := by
  obtain ⟨c, mid, _, hmid, hx, ht⟩ := main_success w env h
  refine ⟨hx, c, preamble w ++ mid ++ [Event.println "Waiting for app to be ready..."], [],
    [Event.println ("CRM is running at "
        ++ targetUrl (applyDefaults { env := env, trace := [] }).env),
     Event.println "To stop: run Stop-CRM.bat or: docker compose down"], ?_, ?_, ?_⟩
  · rw [ht]; simp [epilogue]
  · rw [ht]
    rcases hmid with rfl | rfl <;> simp [preamble, epilogue, sleeps]
  · rw [ht]
    rcases hmid with rfl | rfl <;> simp [preamble, epilogue, starts]

/-- Instance of C6: fallback run, browser opener fails to start. -/
theorem wait_precedes_browser_open_witness :
    (main legacyWorld emptyEnv).exitCode = 0
      ∧ ∃ (c : Cmd) (before between after : List Event),
          (main legacyWorld emptyEnv).trace
              = before ++ Event.sleep 15
                  :: (between ++ Event.start c (legacyWorld.startOk c) :: after)
            ∧ sleeps (main legacyWorld emptyEnv).trace = [15]
            ∧ starts (main legacyWorld emptyEnv).trace = [c] :=
  wait_precedes_browser_open legacyWorld emptyEnv (Or.inr (by decide))

/-- C7 (as stated, refuted): with an empty environment and a primary start
command that succeeds, the last line the launcher prints is the static stop
hint, and that line does not contain the URL `http://localhost:5173`. -/
theorem last_printed_line_lacks_url :
    linuxWorld.runOk (primaryCmd linuxWorld.exeDir) = true
      ∧ (printed (main linuxWorld emptyEnv).trace).getLast?
          = some "To stop: run Stop-CRM.bat or: docker compose down"
      ∧ ¬ Contains "To stop: run Stop-CRM.bat or: docker compose down"
          "http://localhost:5173" := by
  refine ⟨by decide, by decide, by decide⟩

/-- C7 (amended): with `CRM2_FRONTEND_PORT` unset (in particular when none of
the four port variables is set) and a primary start command that succeeds, the
effective frontend port is `"5173"`, the target URL is
`"http://localhost:5173"`, the exit status is 0, and the last two lines
printed are `CRM is running at http://localhost:5173`, which contains the URL,
and then the static stop hint. -/
theorem empty_env_scenario (w : World) (env : Env)
    (hfr : env "CRM2_FRONTEND_PORT" = none)
    (hp : w.runOk (primaryCmd w.exeDir) = true) :
    (main w env).env "CRM2_FRONTEND_PORT" = some "5173"
      ∧ targetUrl (main w env).env = "http://localhost:5173"
      ∧ (main w env).exitCode = 0
      ∧ (∃ earlier : List String, printed (main w env).trace
          = earlier ++ ["CRM is running at http://localhost:5173",
              "To stop: run Stop-CRM.bat or: docker compose down"])
      ∧ Contains "CRM is running at http://localhost:5173" "http://localhost:5173" := by
  have hport : (applyDefaults { env := env, trace := [] }).env "CRM2_FRONTEND_PORT"
      = some "5173" := by
    rw [applyDefaults_env]; simp [getenv, hfr]
  have hurl : targetUrl (applyDefaults { env := env, trace := [] }).env
      = "http://localhost:5173" := by
    simp [targetUrl, getenv, hport]
  obtain ⟨c, _, hx, he, ht⟩ := main_primary_ok w env hp
  rw [hurl] at ht
  refine ⟨by rw [he]; exact hport, by rw [he]; exact hurl, hx, ?_, by decide⟩
  refine ⟨["CRM Launcher - starting services...", "Project dir: " ++ w.exeDir,
    "Waiting for app to be ready..."], ?_⟩
  rw [ht]
  simp [preamble, epilogue, printed]

/-- Instance of the amended C7: Linux host, empty environment. -/
theorem empty_env_scenario_witness :
    (main linuxWorld emptyEnv).env "CRM2_FRONTEND_PORT" = some "5173"
      ∧ targetUrl (main linuxWorld emptyEnv).env = "http://localhost:5173"
      ∧ (main linuxWorld emptyEnv).exitCode = 0
      ∧ (∃ earlier : List String, printed (main linuxWorld emptyEnv).trace
          = earlier ++ ["CRM is running at http://localhost:5173",
              "To stop: run Stop-CRM.bat or: docker compose down"])
      ∧ Contains "CRM is running at http://localhost:5173" "http://localhost:5173" :=
  empty_env_scenario linuxWorld emptyEnv rfl rfl

/-- C9: for every host OS name and every URL `u`, the browser step dispatches
exactly one command, chosen by a three-way branch: `cmd /c start "" u` on
`"windows"`, `open u` on `"darwin"`, `xdg-open u` on anything else; `u` is the
last argument in each case.  In a run in which a start command succeeds this
is the only command the launcher dispatches with `Start`, with `u` the target
URL. -/
theorem browser_command_by_host_os (w : World) (u : String) (s : State) (env : Env) :
    (∃ c : Cmd, (openBrowser w u s).trace = s.trace ++ [Event.start c (w.startOk c)]
        ∧ starts (openBrowser w u s).trace = starts s.trace ++ [c]
        ∧ c.args.getLast? = some u
        ∧ (w.goos = "windows" →
            c = { name := "cmd", args := ["/c", "start", "", u], dir := "" })
        ∧ (w.goos = "darwin" → c = { name := "open", args := [u], dir := "" })
        ∧ (w.goos ≠ "windows" → w.goos ≠ "darwin" →
            c = { name := "xdg-open", args := [u], dir := "" }))
      ∧ (w.runOk (primaryCmd w.exeDir) = true ∨ w.runOk (fallbackCmd w.exeDir) = true →
          ∃ c : Cmd, starts (main w env).trace = [c]
            ∧ c.args.getLast? = some (targetUrl (main w env).env)
            ∧ (w.goos = "windows" → c = command "cmd"
                ["/c", "start", "", targetUrl (main w env).env])
            ∧ (w.goos = "darwin" → c = command "open" [targetUrl (main w env).env])
            ∧ (w.goos ≠ "windows" → w.goos ≠ "darwin" →
                c = command "xdg-open" [targetUrl (main w env).env])) := by
  constructor
  · obtain ⟨c, hc, hlast, hw, hd, hx⟩ := openBrowser_spec w u s
    refine ⟨c, by rw [hc]; rfl, ?_, hlast, hw, hd, hx⟩
    rw [hc]
    simp [State.emit, starts_append, starts]
  · intro h
    obtain ⟨c, mid, ⟨hlast, hw, hd, hx⟩, hmid, _, ht⟩ := main_success w env h
    rw [main_env]
    refine ⟨c, ?_, hlast, hw, hd, hx⟩
    rw [ht]
    rcases hmid with rfl | rfl <;> simp [preamble, epilogue, starts]

/-- Instance of C9: the Windows branch in a full run. -/
theorem browser_command_by_host_os_witness :
    starts (main legacyWorld emptyEnv).trace
      = [{ name := "cmd", args := ["/c", "start", "", "http://localhost:5173"], dir := "" }] := by
  obtain ⟨c, hc, _, hw, _, _⟩ :=
    (browser_command_by_host_os legacyWorld "" { env := emptyEnv, trace := [] } emptyEnv).2
      (Or.inr (by decide))
  rw [hc, hw rfl]
  rfl

/-- C10: if the primary start command succeeds, the primary is the only start
command run and the fallback is not run; in every run the number of
start-command invocations is 1 or 2, and it is 2 exactly when the primary
fails. -/
theorem start_invocation_count (w : World) (env : Env) :
    (w.runOk (primaryCmd w.exeDir) = true →
        runs (main w env).trace = [primaryCmd w.exeDir]
          ∧ fallbackCmd w.exeDir ∉ runs (main w env).trace)
      ∧ ((runs (main w env).trace).length = 1 ∨ (runs (main w env).trace).length = 2)
      ∧ ((runs (main w env).trace).length = 2 ↔ w.runOk (primaryCmd w.exeDir) = false) := by
  have hne : fallbackCmd w.exeDir ≠ primaryCmd w.exeDir := by
    intro h
    have hn : "docker-compose" = "docker" := congrArg Cmd.name h
    exact absurd hn (by decide)
  cases hp : w.runOk (primaryCmd w.exeDir) with
  | true =>
    obtain ⟨c, _, _, _, ht⟩ := main_primary_ok w env hp
    have hr : runs (main w env).trace = [primaryCmd w.exeDir] := by
      rw [ht]; simp [preamble, epilogue, runs]
    rw [hr]
    simp [hne]
  | false =>
    have hr : runs (main w env).trace = [primaryCmd w.exeDir, fallbackCmd w.exeDir] := by
      cases hf : w.runOk (fallbackCmd w.exeDir) with
      | false =>
        rw [(main_both_fail w env hp hf).2.2]
        simp [preamble, runs]
      | true =>
        obtain ⟨c, _, _, _, ht⟩ := main_fallback_ok w env hp hf
        rw [ht]
        simp [preamble, epilogue, runs]
    rw [hr]
    simp

/-- Instance of C10: the primary command succeeds. -/
theorem start_invocation_count_witness :
    runs (main linuxWorld emptyEnv).trace = [primaryCmd "/opt/crm"]
      ∧ fallbackCmd "/opt/crm" ∉ runs (main linuxWorld emptyEnv).trace :=
  (start_invocation_count linuxWorld emptyEnv).1 rfl

end Launcher
